import Mathlib

/-!
# Verification of the resource-fetch and session lifecycles

A shallow embedding, in Lean 4, of the state-management logic of a React
Native starter template.  Asynchronous actions are modelled as explicit
state-transition functions: the outcome of the one `await`ed operation of
each action is passed in as an `Except` value, and all JavaScript values
that can be thrown are modelled by the `JsValue` type.  The durable
key-value store is modelled as a partial map from string keys to the
JSON-representable values the app stores, together with a fault oracle
that says which underlying storage operations throw (and what they throw).
-/

namespace RNStarter

/-- A JavaScript value, as far as the error-handling paths inspect one:
`vErr` is an `Error` instance carrying its `message`; `vObj` is a plain
object of which only the optional `message` and `status` fields are ever
read; the remaining constructors are the non-object shapes the code
distinguishes (`null`, `undefined`, strings, numbers, booleans). -/
inductive JsValue where
  | vNull
  | vUndefined
  | vStr (s : String)
  | vNum (n : Int)
  | vBool (b : Bool)
  | vErr (message : String)
  | vObj (message : Option String) (status : Option Int)
deriving Repr, DecidableEq

/-- The fixed fallback string of `formatApiError` (src/utils/logger). -/
def unknownErrorMessage : String := "An unknown error occurred"

/-- `formatApiError` from the logger utility.  `if (apiError.message)`
and `apiError.status ? _ : _` are JavaScript truthiness tests: an empty
string and the number `0` are falsy. -/
def formatApiError : JsValue → String
  | .vErr message => message
  | .vObj message status =>
      match message with
      | some m =>
          if m ≠ "" then
            match status with
            | some s => if s ≠ 0 then "[" ++ toString s ++ "] " ++ m else m
            | none => m
          else unknownErrorMessage
      | none => unknownErrorMessage
  | _ => unknownErrorMessage

/-- `err instanceof Error ? err.message : fallback`, the error-message
derivation used by the Zustand stores and the Jotai fetch atom. -/
def errInstanceMessage (e : JsValue) (fallback : String) : String :=
  match e with
  | .vErr m => m
  | _ => fallback

/-- The `message` field of a JavaScript value, when it has one. -/
def jsMessageField : JsValue → Option String
  | .vErr m => some m
  | .vObj m _ => m
  | _ => none

/-- Whether reading a property such as `.message` on the value throws:
in JavaScript, property access on `null` or `undefined` raises a
TypeError, while every other value (objects, and primitives via boxing)
yields the property or `undefined`. -/
def propertyAccessThrows : JsValue → Bool
  | .vNull => true
  | .vUndefined => true
  | _ => false

/-- `apiError.message || fallback`, the derivation used by `useFetch`,
for a rejection value on which the property access does not throw: the
message field when present and truthy (an empty-string message is
falsy, hence replaced by the fallback).  The `null`/`undefined` case,
where the access itself throws, is handled in `useFetchSettle`. -/
def messageOrFallback (e : JsValue) (fallback : String) : String :=
  match jsMessageField e with
  | some m => if m ≠ "" then m else fallback
  | none => fallback

end RNStarter

namespace RNStarter

/-- C1, counterexample: a rejection object exposing the message
"Not Found" and the numeric status `0` is formatted as plain
"Not Found", not as "[0] Not Found" as the claim requires, because the
code tests the status for JavaScript truthiness and `0` is falsy. -/
theorem formatApiError_zero_status_drops_status :
    formatApiError (JsValue.vObj (some "Not Found") (some 0)) = "Not Found" ∧
    formatApiError (JsValue.vObj (some "Not Found") (some 0)) ≠ "[0] Not Found" := by
  constructor
  · rfl
  · intro h
    simp [formatApiError] at h

/-- C1 (amended): an `Error` instance is formatted as its message
verbatim (the `instanceof Error` branch returns `error.message`
unconditionally, even when it is empty); a plain object exposing a
non-empty message and a nonzero numeric status is formatted as
`[<status>] <message>`; a plain object exposing a non-empty message
with no status, or with the falsy status `0`, is formatted as the
message alone; and every other rejection shape — null, undefined, a
plain string, a number, a boolean, or a plain object whose message
field is absent or the empty string — yields the fixed string
"An unknown error occurred". -/
theorem formatApiError_spec :
    (∀ m, formatApiError (JsValue.vErr m) = m) ∧
    (∀ m s, m ≠ "" → s ≠ 0 →
        formatApiError (JsValue.vObj (some m) (some s)) = "[" ++ toString s ++ "] " ++ m) ∧
    (∀ m, m ≠ "" → formatApiError (JsValue.vObj (some m) none) = m) ∧
    (∀ m, m ≠ "" → formatApiError (JsValue.vObj (some m) (some 0)) = m) ∧
    formatApiError JsValue.vNull = unknownErrorMessage ∧
    formatApiError JsValue.vUndefined = unknownErrorMessage ∧
    (∀ s, formatApiError (JsValue.vStr s) = unknownErrorMessage) ∧
    (∀ n, formatApiError (JsValue.vNum n) = unknownErrorMessage) ∧
    (∀ b, formatApiError (JsValue.vBool b) = unknownErrorMessage) ∧
    (∀ st, formatApiError (JsValue.vObj none st) = unknownErrorMessage) ∧
    (∀ st, formatApiError (JsValue.vObj (some "") st) = unknownErrorMessage) := by
  refine ⟨fun _ => rfl, ?_, ?_, ?_, rfl, rfl, fun _ => rfl, fun _ => rfl, fun _ => rfl,
         fun _ => rfl, fun _ => rfl⟩ <;>
    intros <;> simp [formatApiError, *]

/-- C1 witness: `formatApiError_spec` applied to the concrete rejection
object `{ message: "Request failed", status: 404 }`. -/
theorem formatApiError_spec_witness :
    formatApiError (JsValue.vObj (some "Request failed") (some 404)) = "[404] Request failed" := by
  have h := formatApiError_spec.2.1 "Request failed" 404 (by decide) (by decide)
  simpa using h

/-! ## Todos: data model and the three fetch-lifecycle variants -/

/-- A todo record as fetched from the mock backend (src/types/api). -/
structure Todo where
  id : Nat
  userId : Nat
  title : String
  completed : Bool
deriving Repr, DecidableEq

/-- The Zustand todos store state (src/stores/useTodosStore.ts): the
fetched list, the loading flag, and the error message (`null` = absent). -/
structure TodosState where
  todos : List Todo
  loading : Bool
  error : Option String
deriving Repr, DecidableEq

/-- Initial state of the Zustand todos store. -/
def todosInitialState : TodosState := { todos := [], loading := false, error := none }

/-- The synchronous prefix of `fetchTodos`:
`set({ loading: true, error: null })`. -/
def fetchTodosStart (s : TodosState) : TodosState :=
  { s with loading := true, error := none }

/-- The continuation of `fetchTodos` once `todosApi.getAll()` settles:
on resolution the whole state is replaced by
`{ todos: data, loading: false, error: null }`; on rejection only
`loading` and `error` are written, so `todos` is left as it was. -/
def fetchTodosSettle (s : TodosState) : Except JsValue (List Todo) → TodosState
  | .ok data => { todos := data, loading := false, error := none }
  | .error e =>
      { s with loading := false,
               error := some (errInstanceMessage e "Failed to fetch todos.") }

/-- `fetchTodos` of the Zustand todos store, as a transition on the store
state parameterised by the outcome of the awaited `todosApi.getAll()`. -/
def fetchTodos (s : TodosState) (r : Except JsValue (List Todo)) : TodosState :=
  fetchTodosSettle (fetchTodosStart s) r

/-- The state owned by `useFetch` (src/hooks/useFetch.ts): `data`,
`loading` and `error`, with `null` modelled as `none`. -/
structure UseFetchState (T : Type) where
  data : Option T
  loading : Bool
  error : Option String
deriving Repr, DecidableEq

/-- The continuation of `useFetch.fetchData` after `fetchFn()` settles.
Every state update of this section is guarded by `mountedRef.current`
(a single synchronous section, so one Boolean suffices).  When mounted:
resolution stores the result and clears the error; rejection reads
`apiError.message`, which on a `null`/`undefined` rejection itself
throws a TypeError, so `setError`/`setData(null)` never run and only
the guarded `finally` clears `loading` (the TypeError then escapes and
rejects `fetchData`'s promise, see `useFetchRejects`); on any other
rejection the derived message is stored and `data` is reset to `null`;
and `finally` clears `loading`.  When unmounted, nothing is written. -/
def useFetchSettle {T : Type} (mounted : Bool) (s : UseFetchState T) :
    Except JsValue T → UseFetchState T
  | .ok v =>
      if mounted then { data := some v, loading := false, error := none } else s
  | .error e =>
      if mounted then
        if propertyAccessThrows e then
          { s with loading := false }
        else
          { data := none, loading := false,
            error := some (messageOrFallback e "Failed to fetch data") }
      else s

/-- Whether the promise returned by `fetchData` rejects: only when the
owner is still mounted and the rejection value is `null` or `undefined`
does the catch block itself throw (the TypeError raised by the
`apiError.message` access), escaping through the `finally` block. -/
def useFetchRejects {T : Type} (mounted : Bool) : Except JsValue T → Bool
  | .ok _ => false
  | .error e => mounted && propertyAccessThrows e

/-- A full run of `useFetch.fetchData`: the unguarded synchronous prefix
`setLoading(true); setError(null)` followed by the settling section. -/
def useFetchFetchData {T : Type} (mounted : Bool) (s : UseFetchState T)
    (r : Except JsValue T) : UseFetchState T :=
  useFetchSettle mounted { s with loading := true, error := none } r

/-- The three Jotai todos atoms (src/atoms, todos):
`todosAtom`, `todosLoadingAtom`, `todosErrorAtom`. -/
structure TodosAtomsState where
  todos : List Todo
  todosLoading : Bool
  todosError : Option String
deriving Repr, DecidableEq

/-- A run of the async write atom `fetchTodosAtom`, returning the final
atom values and the result it returns or re-throws: it first sets
`loading := true, error := null`; on resolution it stores the list and
clears `loading` (the error atom keeps the `null` just written); on
rejection it stores the derived message, clears `loading`, and re-throws
the original error. -/
def fetchTodosAtomRun (s : TodosAtomsState) (r : Except JsValue (List Todo)) :
    TodosAtomsState × Except JsValue (List Todo) :=
  let s1 : TodosAtomsState := { s with todosLoading := true, todosError := none }
  match r with
  | .ok todos => ({ s1 with todos := todos, todosLoading := false }, .ok todos)
  | .error e =>
      ({ s1 with
          todosError := some (errInstanceMessage e "Failed to fetch todos"),
          todosLoading := false },
       .error e)

/-- C2: in each of the three fetch variants — the Zustand todos store,
the Jotai fetch atom, and `useFetch` (with its owner still mounted) — a
fetch whose awaited operation resolves leaves the machine in the success
state: loading flag false, data equal to the resolved value, and no
error message, whatever the prior state was. -/
theorem fetch_success_reaches_success_state :
    (∀ (s : TodosState) (data : List Todo),
        fetchTodos s (.ok data) = { todos := data, loading := false, error := none }) ∧
    (∀ (s : TodosAtomsState) (data : List Todo),
        (fetchTodosAtomRun s (.ok data)).1 =
          { todos := data, todosLoading := false, todosError := none }) ∧
    (∀ (T : Type) (s : UseFetchState T) (v : T),
        useFetchFetchData true s (.ok v) =
          { data := some v, loading := false, error := none }) :=
  ⟨fun _ _ => rfl, fun _ _ => rfl, fun _ _ _ => rfl⟩

/-- C4, counterexample: with a previously fetched value present
(`data = some []`), a rejection of `useFetch`'s operation leaves
`data = none`: the catch branch runs `setData(null)` and so discards the
previous value instead of leaving it untouched. -/
theorem useFetch_failure_discards_data :
    (useFetchFetchData true
        { data := some ([] : List Todo), loading := false, error := none }
        (.error (JsValue.vErr "network down"))).data = none ∧
    some ([] : List Todo) ≠ none :=
  ⟨rfl, by decide⟩

/-- C4 (amended): on a rejected fetch, the Zustand todos store and the
Jotai todos atoms set the error message and leave the previously fetched
data untouched; `useFetch`, however, resets `data` to `null` in its
catch branch — discarding the previous value — for every rejection on
which the `apiError.message` access succeeds; for a `null` or
`undefined` rejection the access itself throws before `setError` and
`setData(null)` run, so data and error are left unwritten, only the
`finally` block clears `loading`, and `fetchData`'s promise rejects. -/
theorem fetch_failure_data_retention :
    (∀ (s : TodosState) (e : JsValue),
        (fetchTodos s (.error e)).todos = s.todos ∧
        (fetchTodos s (.error e)).loading = false ∧
        (fetchTodos s (.error e)).error =
          some (errInstanceMessage e "Failed to fetch todos.")) ∧
    (∀ (s : TodosAtomsState) (e : JsValue),
        ((fetchTodosAtomRun s (.error e)).1).todos = s.todos ∧
        ((fetchTodosAtomRun s (.error e)).1).todosError =
          some (errInstanceMessage e "Failed to fetch todos")) ∧
    (∀ (T : Type) (s : UseFetchState T) (e : JsValue),
        propertyAccessThrows e = false →
        (useFetchFetchData true s (.error e)).data = none ∧
        (useFetchFetchData true s (.error e)).error =
          some (messageOrFallback e "Failed to fetch data")) ∧
    (∀ (T : Type) (s : UseFetchState T) (e : JsValue),
        propertyAccessThrows e = true →
        (useFetchFetchData true s (.error e)).data = s.data ∧
        (useFetchFetchData true s (.error e)).error = none ∧
        (useFetchFetchData true s (.error e)).loading = false ∧
        useFetchRejects true (.error e : Except JsValue T) = true) := by
  refine ⟨fun _ _ => ⟨rfl, rfl, rfl⟩, fun _ _ => ⟨rfl, rfl⟩, ?_, ?_⟩
  · intro T s e h
    simp [useFetchFetchData, useFetchSettle, h]
  · intro T s e h
    simp [useFetchFetchData, useFetchSettle, useFetchRejects, h]

/-- C4 witness: `fetch_failure_data_retention` applied, from a state
holding a fetched list, to the Error rejection "boom" (data discarded)
and to the `null` rejection (data retained, promise rejected). -/
theorem fetch_failure_data_retention_witness :
    (useFetchFetchData true
        { data := some ([] : List Todo), loading := false, error := none }
        (.error (JsValue.vErr "boom"))).data = none ∧
    (useFetchFetchData true
        { data := some ([] : List Todo), loading := false, error := none }
        (.error JsValue.vNull)).data = some [] ∧
    useFetchRejects true (.error JsValue.vNull : Except JsValue (List Todo)) = true := by
  refine ⟨?_, ?_, ?_⟩
  · exact (fetch_failure_data_retention.2.2.1 (List Todo)
      { data := some [], loading := false, error := none } (JsValue.vErr "boom") rfl).1
  · exact (fetch_failure_data_retention.2.2.2 (List Todo)
      { data := some [], loading := false, error := none } JsValue.vNull rfl).1
  · exact (fetch_failure_data_retention.2.2.2 (List Todo)
      { data := some [], loading := false, error := none } JsValue.vNull rfl).2.2.2

/-- C9: once `useFetch`'s owner has been torn down (`mountedRef.current`
set to `false`), the settling of an in-flight fetch — resolution or
rejection alike — leaves the hook state exactly as it was: no `data`,
`error` or `loading` update is observable after teardown. -/
theorem useFetch_no_update_after_unmount (T : Type) (s : UseFetchState T)
    (r : Except JsValue T) :
    useFetchSettle false s r = s := by
  cases r <;> rfl

/-! ## Local todos mutations of the Zustand store -/

/-- `Omit<Todo, 'id'>`: the caller-supplied fields of a new todo. -/
structure TodoData where
  userId : Nat
  title : String
  completed : Bool
deriving Repr, DecidableEq

/-- `Partial<Todo>`: an update in which every field is optional. -/
structure TodoUpdates where
  id : Option Nat
  userId : Option Nat
  title : Option String
  completed : Option Bool
deriving Repr, DecidableEq

/-- The object spread `{ ...todo, ...updates }`: each field present in
the update overrides the corresponding field of the todo. -/
def applyUpdates (t : Todo) (u : TodoUpdates) : Todo :=
  { id := u.id.getD t.id,
    userId := u.userId.getD t.userId,
    title := u.title.getD t.title,
    completed := u.completed.getD t.completed }

/-- `addTodo` of the Zustand todos store.  `Date.now()` is passed in as
`now`.  The try body is a sequence of pure operations (object spread,
array spread, two `set` calls), none of which can throw, so the
translation is total and the result is always `ok`; the `Except` return
type records that the source wraps the body in try/catch. -/
def addTodo (s : TodosState) (now : Nat) (d : TodoData) : Except JsValue TodosState :=
  let s1 := { s with loading := true, error := none }
  let newTodo : Todo :=
    { id := now, userId := d.userId, title := d.title, completed := d.completed }
  .ok { s1 with todos := s1.todos ++ [newTodo], loading := false }

/-- `updateTodo` of the Zustand todos store: maps over the list,
spreading the updates onto the todo whose `id` matches. -/
def updateTodo (s : TodosState) (id : Nat) (u : TodoUpdates) : Except JsValue TodosState :=
  let s1 := { s with loading := true, error := none }
  .ok { s1 with
          todos := s1.todos.map (fun t => if t.id = id then applyUpdates t u else t),
          loading := false }

/-- `deleteTodo` of the Zustand todos store: filters the matching `id`
out of the list. -/
def deleteTodo (s : TodosState) (id : Nat) : Except JsValue TodosState :=
  let s1 := { s with loading := true, error := none }
  .ok { s1 with
          todos := s1.todos.filter (fun t => t.id ≠ id),
          loading := false }

/-- C10: the local mutations `addTodo`, `updateTodo` and `deleteTodo`
never reach their catch branch: for every input and prior store state
each returns `ok` (never rejects) with `loading = false`, no error
message set, and the expected optimistic update applied to the list. -/
theorem local_mutations_never_fail :
    (∀ (s : TodosState) (now : Nat) (d : TodoData),
        addTodo s now d =
          .ok { todos := s.todos ++
                  [{ id := now, userId := d.userId, title := d.title,
                     completed := d.completed }],
                loading := false, error := none }) ∧
    (∀ (s : TodosState) (id : Nat) (u : TodoUpdates),
        updateTodo s id u =
          .ok { todos := s.todos.map (fun t => if t.id = id then applyUpdates t u else t),
                loading := false, error := none }) ∧
    (∀ (s : TodosState) (id : Nat),
        deleteTodo s id =
          .ok { todos := s.todos.filter (fun t => t.id ≠ id),
                loading := false, error := none }) :=
  ⟨fun _ _ _ => rfl, fun _ _ _ => rfl, fun _ _ => rfl⟩

/-! ## The durable key-value store wrapper (src/services, storage) -/

/-- The user identity record returned by the authenticate endpoint. -/
structure UserRecord where
  id : Int
  email : String
  name : String
deriving Repr, DecidableEq

/-- The JSON-representable values the app persists under its storage
keys: the session token (a string) and the user identity record.
`JSON.stringify`/`JSON.parse` are lossless on such values, so
serialization is modelled at the value level. -/
inductive StoredValue where
  | str (s : String)
  | user (u : UserRecord)
deriving Repr, DecidableEq

/-- The durable key-value store: a map from string keys to stored
values, `none` meaning the key is absent. -/
abbrev Storage : Type := String → Option StoredValue

/-- Writing a key into the store. -/
def Storage.set (st : Storage) (k : String) (v : StoredValue) : Storage :=
  fun q => if q = k then some v else st q

/-- Removing a key from the store. -/
def Storage.remove (st : Storage) (k : String) : Storage :=
  fun q => if q = k then none else st q

/-- The empty store: every key absent. -/
def emptyStorage : Storage := fun _ => none

/-- A fault oracle for the underlying `AsyncStorage` engine: for each
key, whether (and with what thrown value) the underlying get, set or
remove operation throws. -/
structure StorageFaults where
  getFault : String → Option JsValue
  setFault : String → Option JsValue
  removeFault : String → Option JsValue

/-- The oracle under which no storage operation throws. -/
def noFaults : StorageFaults :=
  { getFault := fun _ => none, setFault := fun _ => none, removeFault := fun _ => none }

/-- `STORAGE_KEYS.AUTH_TOKEN`. -/
def STORAGE_KEYS_AUTH_TOKEN : String := "auth_token"

/-- `STORAGE_KEYS.USER_DATA`. -/
def STORAGE_KEYS_USER_DATA : String := "user_data"

/-- `setItem` of the storage wrapper: serialize and store; a failure of
the underlying engine is caught, logged, and the original error
re-thrown to the caller. -/
def setItem (f : StorageFaults) (st : Storage) (k : String) (v : StoredValue) :
    Except JsValue Storage :=
  match f.setFault k with
  | some e => .error e
  | none => .ok (st.set k v)

/-- `getItem` of the storage wrapper: read and deserialize; any failure
inside the try block (underlying read or parse) is caught and `null` is
returned, the same result as for an absent key. -/
def getItem (f : StorageFaults) (st : Storage) (k : String) : Option StoredValue :=
  match f.getFault k with
  | some _ => none
  | none => st k

/-- `removeItem` of the storage wrapper: a failure of the underlying
engine is caught, logged, and the original error re-thrown. -/
def removeItem (f : StorageFaults) (st : Storage) (k : String) : Except JsValue Storage :=
  match f.removeFault k with
  | some e => .error e
  | none => .ok (st.remove k)

/-- C6: a failing underlying read makes `getItem` return `none`, the
result an absent key would give (and a non-failing read returns exactly
what the store holds); a failing underlying write or remove makes
`setItem` / `removeItem` re-throw the original error to the caller. -/
theorem storage_failure_policy :
    (∀ (f : StorageFaults) (st : Storage) (k : String) (e : JsValue),
        f.getFault k = some e → getItem f st k = none) ∧
    (∀ (f : StorageFaults) (st : Storage) (k : String),
        f.getFault k = none → getItem f st k = st k) ∧
    (∀ (f : StorageFaults) (st : Storage) (k : String) (v : StoredValue) (e : JsValue),
        f.setFault k = some e → setItem f st k v = .error e) ∧
    (∀ (f : StorageFaults) (st : Storage) (k : String) (e : JsValue),
        f.removeFault k = some e → removeItem f st k = .error e) := by
  refine ⟨?_, ?_, ?_, ?_⟩ <;> intros f st k <;> intros <;>
    simp_all [getItem, setItem, removeItem]

/-- C6 witness: `storage_failure_policy` applied to concrete fault
oracles on the key "auth_token". -/
theorem storage_failure_policy_witness :
    getItem { noFaults with getFault := fun _ => some (JsValue.vErr "disk error") }
        emptyStorage "auth_token" = none ∧
    setItem { noFaults with setFault := fun _ => some (JsValue.vErr "disk full") }
        emptyStorage "auth_token" (.str "abc") = .error (JsValue.vErr "disk full") ∧
    removeItem { noFaults with removeFault := fun _ => some (JsValue.vErr "io error") }
        emptyStorage "auth_token" = .error (JsValue.vErr "io error") :=
  ⟨storage_failure_policy.1 _ _ _ (JsValue.vErr "disk error") rfl,
   storage_failure_policy.2.2.1 _ _ _ _ (JsValue.vErr "disk full") rfl,
   storage_failure_policy.2.2.2 _ _ _ (JsValue.vErr "io error") rfl⟩

/-! ## The authentication service and the session-state variants -/

/-- The authenticate endpoint's response: a session token and the user
identity. -/
structure AuthResponse where
  token : String
  user : UserRecord
deriving Repr, DecidableEq

/-- `authService.login`: awaits the remote authenticate call (its
outcome passed in as `remote`), then persists the token and the user
record via `setItem`.  Returns the store as mutated so far together with
the response, or the first error thrown (a storage write failure is
re-thrown by `setItem` and propagates out of `login`, leaving any
earlier write in place). -/
def authServiceLogin (f : StorageFaults) (st : Storage)
    (remote : Except JsValue AuthResponse) : Storage × Except JsValue AuthResponse :=
  match remote with
  | .error e => (st, .error e)
  | .ok resp =>
      match setItem f st STORAGE_KEYS_AUTH_TOKEN (.str resp.token) with
      | .error e => (st, .error e)
      | .ok st1 =>
          match setItem f st1 STORAGE_KEYS_USER_DATA (.user resp.user) with
          | .error e => (st1, .error e)
          | .ok st2 => (st2, .ok resp)

/-- `authService.logout`: removes the token, then the user record.  A
failing first remove aborts before the second; the error propagates out
with the store as mutated so far. -/
def authServiceLogout (f : StorageFaults) (st : Storage) : Storage × Except JsValue Unit :=
  match removeItem f st STORAGE_KEYS_AUTH_TOKEN with
  | .error e => (st, .error e)
  | .ok st1 =>
      match removeItem f st1 STORAGE_KEYS_USER_DATA with
      | .error e => (st1, .error e)
      | .ok st2 => (st2, .ok ())

/-- The Zustand auth store state (src/stores/useAuthStore.ts). -/
structure AuthState where
  user : Option UserRecord
  token : Option String
  loading : Bool
  error : Option String
deriving Repr, DecidableEq

/-- Initial state of the Zustand auth store. -/
def authInitialState : AuthState :=
  { user := none, token := none, loading := false, error := none }

/-- `login` of the Zustand auth store: sets `loading := true,
error := null`, awaits `authService.login`; on success stores user and
token and clears loading/error; on failure sets only loading and the
derived error message, and re-throws. -/
def authStoreLogin (f : StorageFaults) (s : AuthState) (st : Storage)
    (remote : Except JsValue AuthResponse) :
    AuthState × Storage × Except JsValue AuthResponse :=
  let s1 := { s with loading := true, error := none }
  let r := authServiceLogin f st remote
  match r.2 with
  | .ok resp =>
      ({ user := some resp.user, token := some resp.token, loading := false, error := none },
       r.1, .ok resp)
  | .error e =>
      ({ s1 with loading := false,
                 error := some (errInstanceMessage e "Login failed. Please try again.") },
       r.1, .error e)

/-- `logout` of the Zustand auth store: sets `loading := true`, awaits
`authService.logout`; on success clears user, token, loading and error;
in the catch branch it sets only loading and the error message — the
in-memory user and token are left as they were. -/
def authStoreLogout (f : StorageFaults) (s : AuthState) (st : Storage) :
    AuthState × Storage :=
  let s1 := { s with loading := true }
  let r := authServiceLogout f st
  match r.2 with
  | .ok _ => ({ user := none, token := none, loading := false, error := none }, r.1)
  | .error e =>
      ({ s1 with loading := false,
                 error := some (errInstanceMessage e "Logout failed.") },
       r.1)

/-- The two primitive Jotai auth atoms: `userAtom` and `tokenAtom`. -/
structure AuthAtomsState where
  user : Option UserRecord
  token : Option String
deriving Repr, DecidableEq

/-- A run of the async write atom `loginAtom`: awaits
`authService.login` and sets both atoms on success; there is no
try/catch, so a failure propagates and leaves both atoms untouched. -/
def loginAtomRun (f : StorageFaults) (a : AuthAtomsState) (st : Storage)
    (remote : Except JsValue AuthResponse) :
    AuthAtomsState × Storage × Except JsValue AuthResponse :=
  let r := authServiceLogin f st remote
  match r.2 with
  | .ok resp => ({ user := some resp.user, token := some resp.token }, r.1, .ok resp)
  | .error e => (a, r.1, .error e)

/-- A run of the write atom `logoutAtom`: awaits `authService.logout`
and clears both atoms; the catch branch logs and clears both atoms as
well, so the in-memory session is cleared whatever the outcome. -/
def logoutAtomRun (f : StorageFaults) (_a : AuthAtomsState) (st : Storage) :
    AuthAtomsState × Storage :=
  let r := authServiceLogout f st
  ({ user := none, token := none }, r.1)

/-- The Redux auth slice state (src/store/slices/authSlice.ts). -/
structure ReduxAuthState where
  user : Option UserRecord
  token : Option String
  loading : Bool
  error : Option String
  isAuthenticated : Bool
deriving Repr, DecidableEq

/-- Initial state of the Redux auth slice. -/
def reduxInitialState : ReduxAuthState :=
  { user := none, token := none, loading := false, error := none, isAuthenticated := false }

/-- The manual reducer `setUser` of the auth slice: stores the user and
marks the state authenticated, without touching the token. -/
def reduxSetUser (s : ReduxAuthState) (u : UserRecord) : ReduxAuthState :=
  { s with user := some u, isAuthenticated := true }

/-- The manual reducer `setToken` of the auth slice: stores the token
without touching the user. -/
def reduxSetToken (s : ReduxAuthState) (t : String) : ReduxAuthState :=
  { s with token := some t }

/-- `setUser` of the Zustand auth store: writes the user into the store
state without touching the token, and mirrors it to durable storage; a
failing mirror write is swallowed (`.catch(console.error)`). -/
def authStoreSetUser (f : StorageFaults) (s : AuthState) (st : Storage)
    (u : UserRecord) : AuthState × Storage :=
  ({ s with user := some u },
   match setItem f st STORAGE_KEYS_USER_DATA (.user u) with
   | .ok st1 => st1
   | .error _ => st)

/-- `checkAuth` of the Zustand auth store: sets `loading`, then asks
`authService.isAuthenticated` (the "auth_token" entry is present); if
so it loads the identity record and the token from storage and stores
them with `user || null` and `token || null` (a missing identity record
or an empty-string token becomes `null`); otherwise it clears both.
Under the "user_data" key the app only ever persists identity records,
so any other stored shape is read as absent. -/
def authStoreCheckAuth (f : StorageFaults) (s : AuthState) (st : Storage) : AuthState :=
  let s1 := { s with loading := true }
  match getItem f st STORAGE_KEYS_AUTH_TOKEN with
  | some _ =>
      let user : Option UserRecord :=
        match getItem f st STORAGE_KEYS_USER_DATA with
        | some (.user u) => some u
        | _ => none
      let token : Option String :=
        match getItem f st STORAGE_KEYS_AUTH_TOKEN with
        | some (.str t) => if t ≠ "" then some t else none
        | _ => none
      { s1 with user := user, token := token, loading := false }
  | none => { s1 with user := none, token := none, loading := false }

/-- A concrete identity record used by counterexamples. -/
def adaUser : UserRecord := { id := 1, email := "ada@example.com", name := "Ada" }

/-- `handleLogin` of the login screen: when the email or the password is
the empty string (JavaScript falsiness for strings), it only shows the
validation snackbar and returns — the store's `login` action, and hence
the remote authenticate call, is never invoked and nothing else changes.
Otherwise it clears the error and runs the store's `login`.  The Boolean
component records whether the remote authenticate call was invoked. -/
def handleLogin (email password : String) (f : StorageFaults) (s : AuthState)
    (st : Storage) (remote : Except JsValue AuthResponse) :
    Bool × AuthState × Storage :=
  if email = "" ∨ password = "" then
    (false, s, st)
  else
    let s0 := { s with error := none }
    let r := authStoreLogin f s0 st remote
    (true, r.1, r.2.1)

/-- C3, counterexample: with an authenticated session (token "abc") and
an underlying storage remove that throws, the Zustand store's `logout`
leaves the in-memory token still set to "abc" — its catch branch only
writes `loading` and `error`, so the session does not become
Unauthenticated when the underlying operation fails. -/
theorem authStore_logout_keeps_token_on_failure :
    ((authStoreLogout
        { noFaults with removeFault := fun _ => some (JsValue.vErr "storage unavailable") }
        { user := some { id := 1, email := "ada@example.com", name := "Ada" },
          token := some "abc", loading := false, error := none }
        emptyStorage).1).token = some "abc" ∧
    some "abc" ≠ (none : Option String) :=
  ⟨rfl, by decide⟩

/-- C3 (amended): when the underlying storage removals succeed, the
Zustand store's `logout` leaves the session Unauthenticated with both
persisted entries removed; the Jotai `logoutAtom` clears the in-memory
session even when the underlying operation fails; but in the Zustand
store a failing underlying logout leaves the in-memory user and token
unchanged (only `loading` and `error` are written). -/
theorem logout_spec :
    (∀ (f : StorageFaults) (s : AuthState) (st : Storage),
        f.removeFault STORAGE_KEYS_AUTH_TOKEN = none →
        f.removeFault STORAGE_KEYS_USER_DATA = none →
        (authStoreLogout f s st).1 =
          { user := none, token := none, loading := false, error := none } ∧
        (authStoreLogout f s st).2 STORAGE_KEYS_AUTH_TOKEN = none ∧
        (authStoreLogout f s st).2 STORAGE_KEYS_USER_DATA = none) ∧
    (∀ (f : StorageFaults) (a : AuthAtomsState) (st : Storage),
        (logoutAtomRun f a st).1 = { user := none, token := none }) ∧
    (∀ (f : StorageFaults) (s : AuthState) (st : Storage) (e : JsValue),
        f.removeFault STORAGE_KEYS_AUTH_TOKEN = some e →
        (authStoreLogout f s st).1.user = s.user ∧
        (authStoreLogout f s st).1.token = s.token) := by
  refine ⟨?_, fun _ _ _ => rfl, ?_⟩
  · intro f s st h1 h2
    simp only [STORAGE_KEYS_AUTH_TOKEN, STORAGE_KEYS_USER_DATA] at h1 h2
    simp [authStoreLogout, authServiceLogout, removeItem, h1, h2, Storage.remove,
          STORAGE_KEYS_AUTH_TOKEN, STORAGE_KEYS_USER_DATA]
  · intro f s st e h
    simp only [STORAGE_KEYS_AUTH_TOKEN] at h
    simp [authStoreLogout, authServiceLogout, removeItem, h, STORAGE_KEYS_AUTH_TOKEN]

/-- C3 witness: `logout_spec` applied with the no-fault oracle to an
authenticated concrete state, and with a failing oracle to the same
state. -/
theorem logout_spec_witness :
    (authStoreLogout noFaults
        { user := some { id := 1, email := "ada@example.com", name := "Ada" },
          token := some "abc", loading := false, error := none }
        emptyStorage).1 =
      { user := none, token := none, loading := false, error := none } ∧
    (authStoreLogout
        { noFaults with removeFault := fun _ => some (JsValue.vErr "io error") }
        { user := some { id := 1, email := "ada@example.com", name := "Ada" },
          token := some "abc", loading := false, error := none }
        emptyStorage).1.token = some "abc" := by
  constructor
  · exact (logout_spec.1 noFaults _ emptyStorage rfl rfl).1
  · exact (logout_spec.2.2 _ _ emptyStorage (JsValue.vErr "io error") rfl).2

/-- C5: a login attempt with an empty email or an empty password never
invokes the remote authenticate call (the invoked flag is `false`) and
changes neither the session state nor the durable store — in particular
an Unauthenticated session stays Unauthenticated. -/
theorem empty_credentials_no_remote_call (email password : String)
    (f : StorageFaults) (s : AuthState) (st : Storage)
    (remote : Except JsValue AuthResponse)
    (h : email = "" ∨ password = "") :
    handleLogin email password f s st remote = (false, s, st) := by
  unfold handleLogin
  rw [if_pos h]

/-- C5 witness: `empty_credentials_no_remote_call` at the concrete input
(email "", password "secret") from the initial, unauthenticated state. -/
theorem empty_credentials_no_remote_call_witness :
    handleLogin "" "secret" noFaults authInitialState emptyStorage
        (.ok { token := "abc", user := { id := 1, email := "ada@example.com", name := "Ada" } }) =
      (false, authInitialState, emptyStorage) :=
  empty_credentials_no_remote_call "" "secret" noFaults authInitialState emptyStorage
    (.ok { token := "abc", user := { id := 1, email := "ada@example.com", name := "Ada" } })
    (Or.inl rfl)

/-- C7: persisting a session (the two `setItem` writes performed by
`authService.login`) and then reading the two keys back with `getItem`
— as a fresh process's restore does — yields exactly the token and the
identity that were persisted, provided the storage engine does not fault
on these keys. -/
theorem session_roundtrip (f : StorageFaults) (st : Storage) (tok : String)
    (u : UserRecord)
    (h1 : f.setFault STORAGE_KEYS_AUTH_TOKEN = none)
    (h2 : f.setFault STORAGE_KEYS_USER_DATA = none)
    (h3 : f.getFault STORAGE_KEYS_AUTH_TOKEN = none)
    (h4 : f.getFault STORAGE_KEYS_USER_DATA = none) :
    getItem f (authServiceLogin f st (.ok { token := tok, user := u })).1
        STORAGE_KEYS_AUTH_TOKEN = some (.str tok) ∧
    getItem f (authServiceLogin f st (.ok { token := tok, user := u })).1
        STORAGE_KEYS_USER_DATA = some (.user u) := by
  simp only [STORAGE_KEYS_AUTH_TOKEN, STORAGE_KEYS_USER_DATA] at h1 h2 h3 h4
  simp [authServiceLogin, setItem, getItem, h1, h2, h3, h4, Storage.set,
        STORAGE_KEYS_AUTH_TOKEN, STORAGE_KEYS_USER_DATA]

/-- C7 witness: `session_roundtrip` with the no-fault oracle, the empty
store, the token "abc" and a concrete identity record. -/
theorem session_roundtrip_witness :
    getItem noFaults
        (authServiceLogin noFaults emptyStorage
          (.ok { token := "abc",
                 user := { id := 1, email := "ada@example.com", name := "Ada" } })).1
        STORAGE_KEYS_AUTH_TOKEN = some (.str "abc") ∧
    getItem noFaults
        (authServiceLogin noFaults emptyStorage
          (.ok { token := "abc",
                 user := { id := 1, email := "ada@example.com", name := "Ada" } })).1
        STORAGE_KEYS_USER_DATA =
      some (.user { id := 1, email := "ada@example.com", name := "Ada" }) :=
  session_roundtrip noFaults emptyStorage "abc"
    { id := 1, email := "ada@example.com", name := "Ada" } rfl rfl rfl rfl

/-- The user-iff-token invariant on the Zustand auth store state. -/
def authInv (s : AuthState) : Prop := s.user.isSome = s.token.isSome

/-- The user-iff-token invariant on the Jotai auth atoms. -/
def atomsInv (a : AuthAtomsState) : Prop := a.user.isSome = a.token.isSome

/-- C8, counterexample: the manual setters and restore each break the
user-present-iff-token-present invariant at a concrete input: the Redux
slice's `setUser` and the Zustand store's `setUser` store a user while
the token stays absent (the former even marks the state authenticated),
the Redux slice's `setToken` stores a token while the user stays
absent, and `checkAuth` restores a token with no user when durable
storage holds an "auth_token" entry but no "user_data" entry. -/
theorem setters_and_restore_break_invariant :
    ((reduxSetUser reduxInitialState adaUser).user = some adaUser ∧
     (reduxSetUser reduxInitialState adaUser).token = none ∧
     (reduxSetUser reduxInitialState adaUser).isAuthenticated = true) ∧
    ((authStoreSetUser noFaults authInitialState emptyStorage adaUser).1.user =
        some adaUser ∧
     (authStoreSetUser noFaults authInitialState emptyStorage adaUser).1.token = none) ∧
    ((reduxSetToken reduxInitialState "abc").token = some "abc" ∧
     (reduxSetToken reduxInitialState "abc").user = none) ∧
    ((authStoreCheckAuth noFaults authInitialState
        (Storage.set emptyStorage STORAGE_KEYS_AUTH_TOKEN (.str "abc"))).token =
        some "abc" ∧
     (authStoreCheckAuth noFaults authInitialState
        (Storage.set emptyStorage STORAGE_KEYS_AUTH_TOKEN (.str "abc"))).user = none) :=
  ⟨⟨rfl, rfl, rfl⟩, ⟨rfl, rfl⟩, ⟨rfl, rfl⟩, ⟨rfl, rfl⟩⟩

/-- C8 (amended): the login and logout operations of the Zustand store
and of the Jotai atoms preserve the user-present-iff-token-present
invariant (login sets both on success and touches neither on failure;
logout in these variants clears both or neither); the manual state
setters — the Redux slice's `setUser` and `setToken` and the Zustand
store's `setUser` — each write one side without the other, and restore
(`checkAuth`) stores a token with no user when durable storage holds a
token but no identity record, so each of these can break the
invariant. -/
theorem auth_invariant_preserved :
    (∀ (f : StorageFaults) (s : AuthState) (st : Storage)
        (remote : Except JsValue AuthResponse),
        authInv s → authInv (authStoreLogin f s st remote).1) ∧
    (∀ (f : StorageFaults) (s : AuthState) (st : Storage),
        authInv s → authInv (authStoreLogout f s st).1) ∧
    (∀ (f : StorageFaults) (a : AuthAtomsState) (st : Storage)
        (remote : Except JsValue AuthResponse),
        atomsInv a → atomsInv (loginAtomRun f a st remote).1) ∧
    (∀ (f : StorageFaults) (a : AuthAtomsState) (st : Storage),
        atomsInv (logoutAtomRun f a st).1) := by
  refine ⟨?_, ?_, ?_, fun _ _ _ => rfl⟩
  · intro f s st remote h
    cases hr : (authServiceLogin f st remote).2 <;>
      simp_all [authStoreLogin, authInv]
  · intro f s st h
    cases hr : (authServiceLogout f st).2 <;>
      simp_all [authStoreLogout, authInv]
  · intro f a st remote h
    cases hr : (authServiceLogin f st remote).2 <;>
      simp_all [loginAtomRun, atomsInv]

/-- C8 witness: `auth_invariant_preserved` applied to a successful login
of the Zustand store from the initial state. -/
theorem auth_invariant_preserved_witness :
    authInv (authStoreLogin noFaults authInitialState emptyStorage
        (.ok { token := "abc",
               user := { id := 1, email := "ada@example.com", name := "Ada" } })).1 :=
  auth_invariant_preserved.1 noFaults authInitialState emptyStorage
    (.ok { token := "abc", user := { id := 1, email := "ada@example.com", name := "Ada" } })
    rfl

end RNStarter
